import Mathlib

/-!
Verification of the SerialMidi class (serial-midi.h / its implementation file):
a MIDI 1.0 byte-stream encoder with transmit running status and a byte-at-a-time
receive parser with receive running status. The transport (BufferedSerial) is
modelled by returning the written bytes from each encoder operation and by
passing the optionally-available input byte to the parser; the five callback
delegates are modelled by an event list returned from each parser invocation.
All uint8_t / uint16_t quantities are modelled as Nat reduced modulo 2^8 / 2^16
exactly where the C++ types truncate.
-/

namespace SerialMidi

/-- Mask constant CHANNEL_VOICE_MASK 0x80 from serial-midi.h (bit 7 set). -/
def CHANNEL_VOICE_MASK : Nat := 0x80

/-- Constant SYSTEM_TUNE_REQUEST 0xF6 from serial-midi.h. -/
def SYSTEM_TUNE_REQUEST : Nat := 0xF6

/-- Command constant C_NOTE_ON 0x90 from serial-midi.h. -/
def C_NOTE_ON : Nat := 0x90

/-- Command constant C_NOTE_OFF 0x80 from serial-midi.h. -/
def C_NOTE_OFF : Nat := 0x80

/-- Command constant C_POLYPHONIC_AFTERTOUCH 0xA0 from serial-midi.h. -/
def C_POLYPHONIC_AFTERTOUCH : Nat := 0xA0

/-- Command constant C_PITCH_WHEEL 0xE0 from serial-midi.h. -/
def C_PITCH_WHEEL : Nat := 0xE0

/-- Command constant C_CONTROL_CHANGE 0xB0 from serial-midi.h. -/
def C_CONTROL_CHANGE : Nat := 0xB0

/-- Command constant C_PROGRAM_CHANGE 0xC0 from serial-midi.h. -/
def C_PROGRAM_CHANGE : Nat := 0xC0

/-- Command constant C_CHANNEL_AFTERTOUCH 0xD0 from serial-midi.h. -/
def C_CHANNEL_AFTERTOUCH : Nat := 0xD0

/-- Value RESET of enum midi_state_machine in serial-midi.h (first enumerator). -/
def RESET : Nat := 0

/-- Complement of CHANNEL_VOICE_MASK as the C compiler computes it: the operand
0x80 is promoted to a 32-bit int, so the bitwise complement is 0xFFFFFF7F. -/
def NOT_CHANNEL_VOICE_MASK : Nat := 0xFFFFFF7F

/-- Per-instance mutable state of the SerialMidi class: the six uint8_t fields
declared in serial-midi.h (transmit running status, receive running status,
pending-third-byte flag, the two data-byte buffers, and the diagnostic state
tag). -/
structure MidiState where
  global_running_status_tx : Nat
  global_running_status_rx : Nat
  global_3rd_byte_flag : Nat
  global_midi_c2 : Nat
  global_midi_c3 : Nat
  global_midi_state : Nat
  deriving Repr, DecidableEq

/-- A callback invocation made by the parser: one constructor per registered
delegate of the SerialMidi class. -/
inductive Event where
  | noteOn (note velocity : Nat)
  | noteOff (note velocity : Nat)
  | controlChange (controller value : Nat)
  | pitchWheel (valueLSB valueMSB : Nat)
  | realtime (msg : Nat)
  deriving Repr, DecidableEq

/-- A concrete all-zero memory image, used as a pre-construction state and as a
concrete decoder start state in witnesses. -/
def zeroPre : MidiState :=
  { global_running_status_tx := 0
    global_running_status_rx := 0
    global_3rd_byte_flag := 0
    global_midi_c2 := 0
    global_midi_c3 := 0
    global_midi_state := 0 }

/-- Body of the SerialMidi::SerialMidi constructor: it assigns
global_running_status_rx, global_3rd_byte_flag, global_midi_c2, global_midi_c3
and global_midi_state. The field global_running_status_tx is assigned nowhere
in the constructor, so it keeps whatever value the pre-construction memory
held; that memory image is the argument here. -/
def construct (pre : MidiState) : MidiState :=
  { pre with
    global_running_status_rx := 0
    global_3rd_byte_flag := 0
    global_midi_c2 := 0
    global_midi_c3 := 0
    global_midi_state := RESET }

/-- SerialMidi::NoteON: builds buf = [C_NOTE_ON | channel, key, velocity]
(each store truncating to uint8_t), writes only the data bytes when the status
byte equals the transmit running status, otherwise writes all three bytes and
updates the transmit running status. Returns the new state and the bytes
written to the serial port. -/
def NoteON (s : MidiState) (channel key velocity : Nat) : MidiState × List Nat :=
  let b0 := (C_NOTE_ON ||| channel % 256) % 256
  let b1 := key % 256
  let b2 := velocity % 256
  if s.global_running_status_tx = b0 then
    (s, [b1, b2])
  else
    ({ s with global_running_status_tx := b0 }, [b0, b1, b2])

/-- SerialMidi::NoteOFF: same running-status scheme with status C_NOTE_OFF. -/
def NoteOFF (s : MidiState) (channel key velocity : Nat) : MidiState × List Nat :=
  let b0 := (C_NOTE_OFF ||| channel % 256) % 256
  let b1 := key % 256
  let b2 := velocity % 256
  if s.global_running_status_tx = b0 then
    (s, [b1, b2])
  else
    ({ s with global_running_status_tx := b0 }, [b0, b1, b2])

/-- SerialMidi::ControlChange: same running-status scheme with status
C_CONTROL_CHANGE. -/
def ControlChange (s : MidiState) (channel controller val : Nat) :
    MidiState × List Nat :=
  let b0 := (C_CONTROL_CHANGE ||| channel % 256) % 256
  let b1 := controller % 256
  let b2 := val % 256
  if s.global_running_status_tx = b0 then
    (s, [b1, b2])
  else
    ({ s with global_running_status_tx := b0 }, [b0, b1, b2])

/-- SerialMidi::PitchWheel(uint8_t, uint16_t): data bytes are
val & ~CHANNEL_VOICE_MASK and (val >> 7) & ~CHANNEL_VOICE_MASK, each store
truncating to uint8_t; LSB is placed before MSB. Same running-status scheme
with status C_PITCH_WHEEL. -/
def PitchWheel_u16 (s : MidiState) (channel val : Nat) : MidiState × List Nat :=
  let v := val % 65536
  let b0 := (C_PITCH_WHEEL ||| channel % 256) % 256
  let b1 := (v &&& NOT_CHANNEL_VOICE_MASK) % 256
  let b2 := ((v >>> 7) &&& NOT_CHANNEL_VOICE_MASK) % 256
  if s.global_running_status_tx = b0 then
    (s, [b1, b2])
  else
    ({ s with global_running_status_tx := b0 }, [b0, b1, b2])

/-- SerialMidi::PitchWheel(uint8_t, int16_t): computes
uint16_t pitch = uint16_t(val + 0x2000) (conversion to uint16_t is reduction
modulo 2^16) and delegates to the unsigned PitchWheel. -/
def PitchWheel_i16 (s : MidiState) (channel : Nat) (val : Int) :
    MidiState × List Nat :=
  let pitch : Nat := ((val + 0x2000) % 65536).toNat
  PitchWheel_u16 s channel pitch

/-- SerialMidi::ReceiveParser, one invocation. The Option argument models
serial_port.read: none when no byte is available (the function returns at
once), some c when a byte c was read. The result is the updated state and the
list of callback invocations made during this call. -/
def ReceiveParser (s : MidiState) (input : Option Nat) : MidiState × List Event :=
  match input with
  | none => (s, [])
  | some c0 =>
    let c := c0 % 256
    if (c &&& CHANNEL_VOICE_MASK) ≠ 0 then
      if 0xF8 ≤ c then
        (s, [Event.realtime c])
      else
        if c = SYSTEM_TUNE_REQUEST then
          ({ s with global_running_status_rx := c, global_3rd_byte_flag := 0,
                    global_midi_c2 := c }, [])
        else
          ({ s with global_running_status_rx := c, global_3rd_byte_flag := 0 }, [])
    else
      if s.global_3rd_byte_flag = 1 then
        let rx := s.global_running_status_rx &&& 0xF0
        let s1 : MidiState :=
          { s with global_3rd_byte_flag := 0, global_midi_c3 := c,
                   global_running_status_rx := rx }
        if rx = C_NOTE_ON then
          if c = 0 then
            (s1, [Event.noteOff s.global_midi_c2 c])
          else
            (s1, [Event.noteOn s.global_midi_c2 c])
        else if rx = C_NOTE_OFF then
          (s1, [Event.noteOff s.global_midi_c2 c])
        else if rx = C_PITCH_WHEEL then
          (s1, [Event.pitchWheel s.global_midi_c2 c])
        else if rx = C_PROGRAM_CHANGE then
          (s1, [])
        else if rx = C_POLYPHONIC_AFTERTOUCH then
          (s1, [])
        else if rx = C_CHANNEL_AFTERTOUCH then
          (s1, [])
        else if rx = C_CONTROL_CHANGE then
          (s1, [Event.controlChange s.global_midi_c2 c])
        else
          (s1, [])
      else
        if s.global_running_status_rx = 0 then
          (s, [])
        else if s.global_running_status_rx < 0xC0 then
          ({ s with global_3rd_byte_flag := 1, global_midi_c2 := c }, [])
        else if s.global_running_status_rx < 0xE0 then
          ({ s with global_midi_c2 := c }, [])
        else if s.global_running_status_rx < 0xF0 then
          ({ s with global_3rd_byte_flag := 1, global_midi_c2 := c }, [])
        else if 0xF0 ≤ s.global_running_status_rx then
          if s.global_running_status_rx = 0xF2 then
            ({ s with global_running_status_rx := 0, global_3rd_byte_flag := 1,
                      global_midi_c2 := c }, [])
          else if 0xF0 ≤ s.global_running_status_rx then
            if s.global_running_status_rx = 0xF3 ∨
               s.global_running_status_rx = 0xF3 then
              ({ s with global_running_status_rx := 0, global_midi_c2 := c }, [])
            else
              ({ s with global_running_status_rx := 0 }, [])
          else
            (s, [])
        else
          (s, [])

/-- Drives ReceiveParser over a list of available bytes, one invocation per
byte, concatenating the callback invocations in order. -/
def feed (s : MidiState) (bytes : List Nat) : MidiState × List Event :=
  match bytes with
  | [] => (s, [])
  | b :: rest =>
    let r := ReceiveParser s (some b)
    let r2 := feed r.1 rest
    (r2.1, r.2 ++ r2.2)

/-! Helper lemmas about bytes and status values. -/

/-- A byte below 128 has bit 7 clear. -/
theorem and128_eq_zero_of_lt : ∀ c, c < 128 → c &&& 128 = 0 := by decide

set_option maxRecDepth 4000 in
/-- A byte in 128..255 has bit 7 set. -/
theorem and128_ne_zero_of_ge : ∀ c, c < 256 → 128 ≤ c → c &&& 128 ≠ 0 := by decide

/-- Building a status byte from each command family and a channel below 16:
the uint8_t stores do not truncate anything. -/
theorem orStatus_mod : ∀ ch, ch < 16 →
    (0x90 ||| ch % 256) % 256 = 0x90 ||| ch ∧
    (0x80 ||| ch % 256) % 256 = 0x80 ||| ch ∧
    (0xB0 ||| ch % 256) % 256 = 0xB0 ||| ch ∧
    (0xE0 ||| ch % 256) % 256 = 0xE0 ||| ch := by decide

/-- Arithmetic facts about a note-on status byte 0x90 | ch for ch < 16. -/
theorem noteOnStatus_facts : ∀ ch, ch < 16 →
    128 ≤ 0x90 ||| ch ∧ (0x90 ||| ch) < 0xF8 ∧ (0x90 ||| ch) ≠ 0xF6 ∧
    (0x90 ||| ch) ≠ 0 ∧ (0x90 ||| ch) < 0xC0 ∧ ((0x90 ||| ch) &&& 0xF0) = 0x90 := by
  decide

/-- Truncating x & 0xFFFFFF7F to a byte keeps exactly the low seven bits:
the C expression (uint8_t)(x & ~CHANNEL_VOICE_MASK) equals x % 128. -/
theorem and_not_mask_mod256 (x : Nat) : (x &&& 0xFFFFFF7F) % 256 = x % 128 := by
  have h1 : (x &&& 0xFFFFFF7F) % 256 = (x &&& 0xFFFFFF7F) &&& (2 ^ 8 - 1) :=
    (Nat.and_pow_two_sub_one_eq_mod _ 8).symm
  have h2 : (x &&& 0xFFFFFF7F) &&& (2 ^ 8 - 1) = x &&& (0xFFFFFF7F &&& (2 ^ 8 - 1)) :=
    Nat.and_assoc x 0xFFFFFF7F (2 ^ 8 - 1)
  have h3 : (0xFFFFFF7F &&& (2 ^ 8 - 1) : Nat) = 2 ^ 7 - 1 := by decide
  have h4 : x &&& (2 ^ 7 - 1) = x % 2 ^ 7 := Nat.and_pow_two_sub_one_eq_mod x 7
  rw [h1, h2, h3, h4]
  norm_num

/-! Step lemmas for a single ReceiveParser invocation, one per source branch. -/

/-- No byte available: the parser returns at once. -/
theorem ReceiveParser_none (s : MidiState) : ReceiveParser s none = (s, []) := rfl

/-- Realtime branch 0xF8..0xFF: callback, state untouched. -/
theorem ReceiveParser_realtime (s : MidiState) (c : Nat)
    (h1 : 0xF8 ≤ c) (h2 : c < 256) :
    ReceiveParser s (some c) = (s, [Event.realtime c]) := by
  have hm : c % 256 = c := Nat.mod_eq_of_lt h2
  have ha : c &&& 128 ≠ 0 := and128_ne_zero_of_ge c h2 (by omega)
  simp [ReceiveParser, CHANNEL_VOICE_MASK, hm, ha, h1]

/-- Non-realtime, non-tune-request status byte: stored as the receive running
status, pending flag cleared. -/
theorem ReceiveParser_status (s : MidiState) (c : Nat)
    (h1 : 128 ≤ c) (h2 : c < 0xF8) (h3 : c ≠ 0xF6) :
    ReceiveParser s (some c) =
      ({ s with global_running_status_rx := c, global_3rd_byte_flag := 0 }, []) := by
  have hm : c % 256 = c := Nat.mod_eq_of_lt (by omega)
  have ha : c &&& 128 ≠ 0 := and128_ne_zero_of_ge c (by omega) h1
  have h4 : ¬ (0xF8 ≤ c) := by omega
  simp [ReceiveParser, CHANNEL_VOICE_MASK, SYSTEM_TUNE_REQUEST, hm, ha, h4, h3]

/-- First data byte of a two-data-byte family (running status below 0xC0):
the byte is buffered and the pending flag armed; no callback. -/
theorem ReceiveParser_first_data (s : MidiState) (c : Nat) (hc : c < 128)
    (hflag : s.global_3rd_byte_flag ≠ 1)
    (h0 : s.global_running_status_rx ≠ 0)
    (hlt : s.global_running_status_rx < 0xC0) :
    ReceiveParser s (some c) =
      ({ s with global_3rd_byte_flag := 1, global_midi_c2 := c }, []) := by
  have hm : c % 256 = c := Nat.mod_eq_of_lt (by omega)
  have ha : c &&& 128 = 0 := and128_eq_zero_of_lt c hc
  simp [ReceiveParser, CHANNEL_VOICE_MASK, hm, ha, hflag, h0, hlt]

/-- First data byte of a pitch-wheel-range family (0xE0 ≤ running status < 0xF0):
the byte is buffered and the pending flag armed; no callback. -/
theorem ReceiveParser_first_data_e0 (s : MidiState) (c : Nat) (hc : c < 128)
    (hflag : s.global_3rd_byte_flag ≠ 1)
    (hge : 0xE0 ≤ s.global_running_status_rx)
    (hlt : s.global_running_status_rx < 0xF0) :
    ReceiveParser s (some c) =
      ({ s with global_3rd_byte_flag := 1, global_midi_c2 := c }, []) := by
  have hm : c % 256 = c := Nat.mod_eq_of_lt (by omega)
  have ha : c &&& 128 = 0 := and128_eq_zero_of_lt c hc
  have h0 : s.global_running_status_rx ≠ 0 := by omega
  have h1 : ¬ (s.global_running_status_rx < 0xC0) := by omega
  have h2 : ¬ (s.global_running_status_rx < 0xE0) := by omega
  simp [ReceiveParser, CHANNEL_VOICE_MASK, hm, ha, hflag, h0, h1, h2, hlt]

/-- Second data byte with the running-status family masked to 0x90: the note-on
family dispatch, with the velocity-zero note-off convention. -/
theorem ReceiveParser_second_noteon (s : MidiState) (c : Nat) (hc : c < 128)
    (hflag : s.global_3rd_byte_flag = 1)
    (hrx : s.global_running_status_rx &&& 0xF0 = 0x90) :
    ReceiveParser s (some c) =
      ({ s with global_3rd_byte_flag := 0, global_midi_c3 := c,
                global_running_status_rx := 0x90 },
       if c = 0 then [Event.noteOff s.global_midi_c2 c]
       else [Event.noteOn s.global_midi_c2 c]) := by
  have hm : c % 256 = c := Nat.mod_eq_of_lt (by omega)
  have ha : c &&& 128 = 0 := and128_eq_zero_of_lt c hc
  simp [ReceiveParser, CHANNEL_VOICE_MASK, C_NOTE_ON, hm, ha, hflag, hrx]
  split <;> simp

/-! Unfolding lemmas for the encoder operations at channels below 16. -/

/-- NoteON written as one conditional on the transmit running status. -/
theorem NoteON_eq (s : MidiState) (ch k v : Nat) (hch : ch < 16) :
    NoteON s ch k v =
      if s.global_running_status_tx = 0x90 ||| ch then
        (s, [k % 256, v % 256])
      else
        ({ s with global_running_status_tx := 0x90 ||| ch },
         [0x90 ||| ch, k % 256, v % 256]) := by
  have h := (orStatus_mod ch hch).1
  simp only [NoteON, C_NOTE_ON]
  rw [h]

/-- NoteOFF written as one conditional on the transmit running status. -/
theorem NoteOFF_eq (s : MidiState) (ch k v : Nat) (hch : ch < 16) :
    NoteOFF s ch k v =
      if s.global_running_status_tx = 0x80 ||| ch then
        (s, [k % 256, v % 256])
      else
        ({ s with global_running_status_tx := 0x80 ||| ch },
         [0x80 ||| ch, k % 256, v % 256]) := by
  have h := (orStatus_mod ch hch).2.1
  simp only [NoteOFF, C_NOTE_OFF]
  rw [h]

/-- ControlChange written as one conditional on the transmit running status. -/
theorem ControlChange_eq (s : MidiState) (ch k v : Nat) (hch : ch < 16) :
    ControlChange s ch k v =
      if s.global_running_status_tx = 0xB0 ||| ch then
        (s, [k % 256, v % 256])
      else
        ({ s with global_running_status_tx := 0xB0 ||| ch },
         [0xB0 ||| ch, k % 256, v % 256]) := by
  have h := (orStatus_mod ch hch).2.2.1
  simp only [ControlChange, C_CONTROL_CHANGE]
  rw [h]

/-- PitchWheel (unsigned) written as one conditional on the transmit running
status, with the data bytes rewritten as mod-128 values of the 14-bit split. -/
theorem PitchWheel_u16_eq (s : MidiState) (ch v : Nat) (hch : ch < 16) :
    PitchWheel_u16 s ch v =
      if s.global_running_status_tx = 0xE0 ||| ch then
        (s, [v % 65536 % 128, v % 65536 / 128 % 128])
      else
        ({ s with global_running_status_tx := 0xE0 ||| ch },
         [0xE0 ||| ch, v % 65536 % 128, v % 65536 / 128 % 128]) := by
  have h := (orStatus_mod ch hch).2.2.2
  have hlo : (v % 65536 &&& NOT_CHANNEL_VOICE_MASK) % 256 = v % 65536 % 128 :=
    and_not_mask_mod256 (v % 65536)
  have hsh : (v % 65536) >>> 7 = v % 65536 / 128 := by
    rw [Nat.shiftRight_eq_div_pow]
  have hhi : (((v % 65536) >>> 7) &&& NOT_CHANNEL_VOICE_MASK) % 256 = v % 65536 / 128 % 128 := by
    rw [hsh]
    exact and_not_mask_mod256 (v % 65536 / 128)
  simp only [PitchWheel_u16, C_PITCH_WHEEL]
  rw [h, hlo, hhi]

/-!
C1. For every channel-voice send operation, if the computed status byte
(command-family OR channel) equals the transmit running status, only the data
bytes are written; otherwise the full status byte followed by the data bytes is
written and the transmit running status is updated.
-/

/-- C1: running-status elision for NoteON, NoteOFF and ControlChange, plus the
concrete scenario NoteON(0,60,100) then NoteON(0,62,90) producing wire bytes
[0x90, 0x3C, 0x64] and then only [0x3E, 0x5A]. -/
theorem C1_tx_running_status (s : MidiState) (ch k v : Nat) (hch : ch < 16) :
    ((s.global_running_status_tx = 0x90 ||| ch →
        NoteON s ch k v = (s, [k % 256, v % 256])) ∧
     (s.global_running_status_tx ≠ 0x90 ||| ch →
        NoteON s ch k v = ({ s with global_running_status_tx := 0x90 ||| ch },
                           [0x90 ||| ch, k % 256, v % 256]))) ∧
    ((s.global_running_status_tx = 0x80 ||| ch →
        NoteOFF s ch k v = (s, [k % 256, v % 256])) ∧
     (s.global_running_status_tx ≠ 0x80 ||| ch →
        NoteOFF s ch k v = ({ s with global_running_status_tx := 0x80 ||| ch },
                            [0x80 ||| ch, k % 256, v % 256]))) ∧
    ((s.global_running_status_tx = 0xB0 ||| ch →
        ControlChange s ch k v = (s, [k % 256, v % 256])) ∧
     (s.global_running_status_tx ≠ 0xB0 ||| ch →
        ControlChange s ch k v = ({ s with global_running_status_tx := 0xB0 ||| ch },
                                  [0xB0 ||| ch, k % 256, v % 256]))) ∧
    (s.global_running_status_tx ≠ 0x90 →
        (NoteON s 0 60 100).2 = [0x90, 0x3C, 0x64] ∧
        (NoteON (NoteON s 0 60 100).1 0 62 90).2 = [0x3E, 0x5A]) := by
  refine ⟨⟨?_, ?_⟩, ⟨?_, ?_⟩, ⟨?_, ?_⟩, ?_⟩
  · intro h
    rw [NoteON_eq s ch k v hch, if_pos h]
  · intro h
    rw [NoteON_eq s ch k v hch, if_neg h]
  · intro h
    rw [NoteOFF_eq s ch k v hch, if_pos h]
  · intro h
    rw [NoteOFF_eq s ch k v hch, if_neg h]
  · intro h
    rw [ControlChange_eq s ch k v hch, if_pos h]
  · intro h
    rw [ControlChange_eq s ch k v hch, if_neg h]
  · intro h
    have h0 : (0x90 : Nat) ||| 0 = 0x90 := by decide
    have e1 : NoteON s 0 60 100 =
        ({ s with global_running_status_tx := 0x90 }, [0x90, 60, 100]) := by
      rw [NoteON_eq s 0 60 100 (by omega)]
      rw [h0, if_neg h]
    constructor
    · rw [e1]
    · rw [e1]
      rw [NoteON_eq _ 0 62 90 (by omega), h0, if_pos rfl]

/-- Closed instance of C1 at a concrete state and inputs. -/
theorem C1_tx_running_status_witness :
    (NoteON zeroPre 0 60 100).2 = [0x90, 0x3C, 0x64] ∧
    (NoteON (NoteON zeroPre 0 60 100).1 0 62 90).2 = [0x3E, 0x5A] :=
  (C1_tx_running_status zeroPre 0 60 100 (by decide)).2.2.2 (by decide)

/-- Unfolding: feeding a byte then the rest. -/
theorem feed_cons (s : MidiState) (b : Nat) (rest : List Nat) :
    feed s (b :: rest) =
      ((feed (ReceiveParser s (some b)).1 rest).1,
       (ReceiveParser s (some b)).2 ++ (feed (ReceiveParser s (some b)).1 rest).2) :=
  rfl

/-- Unfolding: feeding no bytes. -/
theorem feed_nil (s : MidiState) : feed s [] = (s, []) := rfl

/-!
C2. Claim: encoding a note-on with NoteON and feeding the produced bytes to a
decoder with no receive running status invokes the note-on callback exactly
once with the original pair (note-off when velocity is 0). This fails when the
encoder's transmit running status already equals the note-on status byte: the
status byte is then elided and a no-status decoder discards the data bytes, so
no callback at all is invoked. It holds whenever the transmit running status
differs, so the full status byte is on the wire.
-/

/-- C2 counterexample: with the transmit running status already 0x90, the
encoder emits only the data bytes [60, 100], and a fresh decoder (receive
running status 0) discards them: no callback is invoked. -/
theorem C2_roundtrip_counterexample :
    (NoteON { zeroPre with global_running_status_tx := 0x90 } 0 60 100).2 = [60, 100] ∧
    (feed zeroPre
      (NoteON { zeroPre with global_running_status_tx := 0x90 } 0 60 100).2).2 = [] := by
  decide

/-- C2 amended: when the encoder's transmit running status differs from the
note-on status byte, encoding NoteON(ch, note, vel) and feeding the produced
bytes to a decoder with no receive running status invokes exactly one callback:
note-on with the original pair when vel is nonzero, note-off with (note, 0)
when vel is zero. -/
theorem C2_roundtrip (s d : MidiState) (ch note vel : Nat) (hch : ch < 16)
    (hn : note < 128) (hv : vel < 128)
    (htx : s.global_running_status_tx ≠ 0x90 ||| ch)
    (hrx : d.global_running_status_rx = 0) :
    (feed d (NoteON s ch note vel).2).2 =
      if vel = 0 then [Event.noteOff note 0] else [Event.noteOn note vel] := by
  have hf := noteOnStatus_facts ch hch
  have hnm : note % 256 = note := Nat.mod_eq_of_lt (by omega)
  have hvm : vel % 256 = vel := Nat.mod_eq_of_lt (by omega)
  rw [NoteON_eq s ch note vel hch, if_neg htx]
  simp only [hnm, hvm]
  have e1 := ReceiveParser_status d (0x90 ||| ch) hf.1 hf.2.1 hf.2.2.1
  have e2 := ReceiveParser_first_data
      { d with global_running_status_rx := 0x90 ||| ch, global_3rd_byte_flag := 0 }
      note hn (by simp) (by simpa using hf.2.2.2.1) (by simpa using hf.2.2.2.2.1)
  have e3 := ReceiveParser_second_noteon
      { d with global_running_status_rx := 0x90 ||| ch, global_3rd_byte_flag := 1,
               global_midi_c2 := note }
      vel hv (by simp) (by simpa using hf.2.2.2.2.2)
  simp only [feed_cons, feed_nil, e1, e2, e3]
  by_cases hv0 : vel = 0 <;> simp [hv0]

/-- Closed instance of the amended C2 at concrete inputs, both for a nonzero
and for a zero velocity. -/
theorem C2_roundtrip_witness :
    (feed zeroPre (NoteON zeroPre 0 60 100).2).2 = [Event.noteOn 60 100] ∧
    (feed zeroPre (NoteON zeroPre 0 60 0).2).2 = [Event.noteOff 60 0] := by
  constructor
  · have h := C2_roundtrip zeroPre zeroPre 0 60 100 (by decide) (by decide) (by decide)
      (by decide) rfl
    simpa using h
  · have h := C2_roundtrip zeroPre zeroPre 0 60 0 (by decide) (by decide) (by decide)
      (by decide) rfl
    simpa using h

/-!
C3. Completing a two-data-byte message in the note-on family dispatches the
note-off callback with (first byte, 0) when the second data byte is 0, and the
note-on callback otherwise; concretely [0x90, 0x3C, 0x00] gives note-off(60,0).
-/

/-- C3: note-on-family dispatch on the second data byte, with the velocity-zero
note-off convention, plus the concrete scenario for bytes [0x90, 0x3C, 0x00]. -/
theorem C3_velocity_zero_noteoff (s : MidiState) (c : Nat) (hc : c < 128)
    (hflag : s.global_3rd_byte_flag = 1)
    (hrx : s.global_running_status_rx &&& 0xF0 = 0x90) :
    (ReceiveParser s (some c)).2 =
      (if c = 0 then [Event.noteOff s.global_midi_c2 0]
       else [Event.noteOn s.global_midi_c2 c]) ∧
    (feed zeroPre [0x90, 0x3C, 0x00]).2 = [Event.noteOff 60 0] := by
  constructor
  · rw [ReceiveParser_second_noteon s c hc hflag hrx]
    by_cases h0 : c = 0 <;> simp [h0]
  · decide

/-- Closed instance of C3 at a concrete decoder state and input byte 0. -/
theorem C3_velocity_zero_noteoff_witness :
    (ReceiveParser { zeroPre with global_running_status_rx := 0x90,
                                  global_3rd_byte_flag := 1,
                                  global_midi_c2 := 60 } (some 0)).2 =
      [Event.noteOff 60 0] := by
  have h := C3_velocity_zero_noteoff
      { zeroPre with global_running_status_rx := 0x90, global_3rd_byte_flag := 1,
                     global_midi_c2 := 60 } 0 (by decide) rfl (by decide)
  simpa using h.1

/-!
C4. Claim: every channel-voice send masks every data byte to 7 bits, in
particular NoteON's key and velocity. This fails: NoteON (and NoteOFF,
ControlChange, ChannelAfterTouch) store the caller's uint8_t values into the
write buffer without masking, so a key of 128 is written with bit 7 set. Only
the 14-bit paths (PitchWheel, ModWheel) mask with ~CHANNEL_VOICE_MASK.
-/

/-- C4 counterexample: NoteON transmits its key argument unmasked; with key 128
the byte written in the first data position is 128, whose top bit is set. -/
theorem C4_masking_counterexample :
    (NoteON zeroPre 0 128 100).2 = [0x90, 128, 100] ∧ (128 &&& 0x80 ≠ 0) := by
  decide

/-- C4 amended: PitchWheel masks both data bytes of its 14-bit value to 7 bits
(both are below 128 for every input), while NoteON transmits key and velocity
reduced only modulo 256, so values 128..255 keep their top bit; in neither case
is an error reported (the operations are total). -/
theorem C4_masking (s : MidiState) (ch v k vel : Nat) (hch : ch < 16) :
    ((PitchWheel_u16 s ch v).2 =
      if s.global_running_status_tx = 0xE0 ||| ch then
        [v % 65536 % 128, v % 65536 / 128 % 128]
      else
        [0xE0 ||| ch, v % 65536 % 128, v % 65536 / 128 % 128]) ∧
    v % 65536 % 128 < 128 ∧ v % 65536 / 128 % 128 < 128 ∧
    ((NoteON s ch k vel).2 =
      if s.global_running_status_tx = 0x90 ||| ch then
        [k % 256, vel % 256]
      else
        [0x90 ||| ch, k % 256, vel % 256]) := by
  refine ⟨?_, Nat.mod_lt _ (by omega), Nat.mod_lt _ (by omega), ?_⟩
  · rw [PitchWheel_u16_eq s ch v hch]
    by_cases h : s.global_running_status_tx = 0xE0 ||| ch <;> simp [h]
  · rw [NoteON_eq s ch k vel hch]
    by_cases h : s.global_running_status_tx = 0x90 ||| ch <;> simp [h]

/-- Closed instance of the amended C4: the pitch-wheel data bytes for input
40000 (reduced mod 65536) are masked below 128, while NoteON passes 200
through unmasked. -/
theorem C4_masking_witness :
    (PitchWheel_u16 zeroPre 0 40000).2 = [0xE0, 40000 % 65536 % 128, 40000 % 65536 / 128 % 128] ∧
    (NoteON zeroPre 0 200 100).2 = [0x90, 200, 100] := by
  have h := C4_masking zeroPre 0 40000 200 100 (by decide)
  refine ⟨?_, ?_⟩
  · have h1 := h.1
    simpa using h1
  · have h4 := h.2.2.2
    simpa using h4

/-!
C5. A byte at or above 0xF8 dispatches the realtime callback immediately and
leaves the receive running status, the pending-byte flag and the buffers
untouched; interleaving such a byte between the two data bytes of a note-on
still completes the note-on afterwards.
-/

/-- C5: the realtime branch returns the state unchanged with one realtime
event, and a realtime byte interleaved inside a note-on message does not stop
the note-on (or velocity-zero note-off) from completing on the next byte. -/
theorem C5_realtime_interleave (s d : MidiState) (c note vel : Nat)
    (h1 : 0xF8 ≤ c) (h2 : c < 256) (hn : note < 128) (hv : vel < 128) :
    ReceiveParser s (some c) = (s, [Event.realtime c]) ∧
    (feed d [0x90, note, c, vel]).2 =
      Event.realtime c ::
        (if vel = 0 then [Event.noteOff note 0] else [Event.noteOn note vel]) := by
  refine ⟨ReceiveParser_realtime s c h1 h2, ?_⟩
  have e1 := ReceiveParser_status d 0x90 (by omega) (by omega) (by omega)
  have e2 := ReceiveParser_first_data
      { d with global_running_status_rx := 0x90, global_3rd_byte_flag := 0 }
      note hn (by simp) (by simp) (by simp)
  have e3 := ReceiveParser_realtime
      { d with global_running_status_rx := 0x90, global_3rd_byte_flag := 1,
               global_midi_c2 := note } c h1 h2
  have e4 := ReceiveParser_second_noteon
      { d with global_running_status_rx := 0x90, global_3rd_byte_flag := 1,
               global_midi_c2 := note }
      vel hv (by simp) (by exact (by decide : (144 : Nat) &&& (240 : Nat) = 144))
  simp only [feed_cons, feed_nil, e1, e2, e3, e4]
  by_cases hv0 : vel = 0 <;> simp [hv0]

/-- Closed instance of C5: a timing-clock byte 0xF8 interleaved inside
NoteON(60, 100) on the wire. -/
theorem C5_realtime_interleave_witness :
    ReceiveParser zeroPre (some 0xF8) = (zeroPre, [Event.realtime 0xF8]) ∧
    (feed zeroPre [0x90, 60, 0xF8, 100]).2 =
      [Event.realtime 0xF8, Event.noteOn 60 100] := by
  have h := C5_realtime_interleave zeroPre zeroPre 0xF8 60 100 (by decide) (by decide)
    (by decide) (by decide)
  exact ⟨h.1, by simpa using h.2⟩

/-!
C6. The signed pitch-wheel entry point re-centers by adding 8192 and delegates
to the unsigned path, which emits LSB then MSB; signed −8192 gives data bytes
(0x00, 0x00) and signed 0 gives wire value 8192, data bytes (0x00, 0x40).
-/

/-- C6: for signed values in −8192..8191 the signed PitchWheel equals the
unsigned PitchWheel at value + 8192, the wire bytes are status then LSB then
MSB of that 14-bit value, and at −8192 and 0 the data bytes are (0x00, 0x00)
and (0x00, 0x40) respectively. -/
theorem C6_pitchwheel_signed (s : MidiState) (ch : Nat) (val : Int) (hch : ch < 16)
    (hlo : -8192 ≤ val) (hhi : val ≤ 8191)
    (htx : s.global_running_status_tx ≠ 0xE0 ||| ch) :
    PitchWheel_i16 s ch val = PitchWheel_u16 s ch (val + 8192).toNat ∧
    (PitchWheel_i16 s ch val).2 =
      [0xE0 ||| ch, (val + 8192).toNat % 128, (val + 8192).toNat / 128] ∧
    (PitchWheel_i16 zeroPre 0 (-8192)).2 = [0xE0, 0x00, 0x00] ∧
    (PitchWheel_i16 zeroPre 0 0).2 = [0xE0, 0x00, 0x40] := by
  have hp : ((val + 0x2000) % 65536).toNat = (val + 8192).toNat := by omega
  have heq : PitchWheel_i16 s ch val = PitchWheel_u16 s ch (val + 8192).toNat := by
    simp only [PitchWheel_i16, hp]
  refine ⟨heq, ?_, by decide, by decide⟩
  rw [heq, PitchWheel_u16_eq s ch _ hch, if_neg htx]
  have hb : (val + 8192).toNat < 16384 := by omega
  have hm : (val + 8192).toNat % 65536 = (val + 8192).toNat := Nat.mod_eq_of_lt (by omega)
  have hd : (val + 8192).toNat / 128 < 128 := by omega
  rw [hm, Nat.mod_eq_of_lt hd]

/-- Closed instance of C6 at channel 0 and signed value −1. -/
theorem C6_pitchwheel_signed_witness :
    (PitchWheel_i16 zeroPre 0 (-1)).2 = [0xE0, 0x7F, 0x3F] := by
  have h := C6_pitchwheel_signed zeroPre 0 (-1) (by decide) (by decide) (by decide)
    (by decide)
  have h2 := h.2.1
  simpa using h2

/-!
C7. Claim: at construction both running statuses, the partial-message buffer
and the pending-byte flag are initialized. The constructor body initializes the
receive-side state (global_running_status_rx, global_3rd_byte_flag,
global_midi_c2, global_midi_c3, global_midi_state) but never assigns
global_running_status_tx, which therefore keeps its indeterminate
pre-construction value: the claim is right about the intent (the class comment
and the encoder both rely on the field) and the code omits the assignment.
-/

/-- C7: the constructor initializes every receive-side field, but the
post-construction transmit running status equals whatever the pre-construction
memory held, so it is not initialized; in particular a pre-construction value
of 0x90 makes the very first NoteON on channel 0 elide its status byte. -/
theorem C7_construct_tx_uninitialized (pre : MidiState) :
    (construct pre).global_running_status_rx = 0 ∧
    (construct pre).global_3rd_byte_flag = 0 ∧
    (construct pre).global_midi_c2 = 0 ∧
    (construct pre).global_midi_c3 = 0 ∧
    (construct pre).global_midi_state = RESET ∧
    (construct pre).global_running_status_tx = pre.global_running_status_tx ∧
    (NoteON (construct { zeroPre with global_running_status_tx := 0x90 }) 0 60 100).2 =
      [60, 100] := by
  refine ⟨rfl, rfl, rfl, rfl, rfl, rfl, by decide⟩

/-!
C8. Invoking the receive operation when the transport has no byte available
returns immediately, mutates no internal state and invokes no callback.
-/

/-- C8: ReceiveParser with no byte available returns the state unchanged and
makes no callback. -/
theorem C8_no_byte_noop (s : MidiState) : ReceiveParser s none = (s, []) := rfl

/-!
C9. With receive running status 0xF2 and the pending-byte flag clear, a data
byte clears the running status to 0, arms the pending-byte flag and stores the
byte; the next data byte is then consumed as a second data byte and, the
running-status family being 0, dispatches no callback.
-/

/-- C9: the 0xF2 quirk, and the follow-up consumption of the next data byte
with no callback. -/
theorem C9_f2_quirk (s : MidiState) (c d : Nat) (hc : c < 128) (hd : d < 128)
    (hflag : s.global_3rd_byte_flag = 0)
    (hrx : s.global_running_status_rx = 0xF2) :
    ReceiveParser s (some c) =
      ({ s with global_running_status_rx := 0, global_3rd_byte_flag := 1,
                global_midi_c2 := c }, []) ∧
    ReceiveParser { s with global_running_status_rx := 0, global_3rd_byte_flag := 1,
                           global_midi_c2 := c } (some d) =
      ({ s with global_running_status_rx := 0, global_3rd_byte_flag := 0,
                global_midi_c2 := c, global_midi_c3 := d }, []) := by
  have hmc : c % 256 = c := Nat.mod_eq_of_lt (by omega)
  have hac : c &&& 128 = 0 := and128_eq_zero_of_lt c hc
  have hmd : d % 256 = d := Nat.mod_eq_of_lt (by omega)
  have had : d &&& 128 = 0 := and128_eq_zero_of_lt d hd
  constructor
  · simp [ReceiveParser, CHANNEL_VOICE_MASK, hmc, hac, hflag, hrx]
  · simp [ReceiveParser, CHANNEL_VOICE_MASK, C_NOTE_ON, C_NOTE_OFF, C_PITCH_WHEEL,
      C_PROGRAM_CHANGE, C_POLYPHONIC_AFTERTOUCH, C_CHANNEL_AFTERTOUCH,
      C_CONTROL_CHANGE, hmd, had]

/-- Closed instance of C9 at a concrete state and bytes 5 then 7. -/
theorem C9_f2_quirk_witness :
    ReceiveParser { zeroPre with global_running_status_rx := 0xF2 } (some 5) =
      ({ zeroPre with global_running_status_rx := 0, global_3rd_byte_flag := 1,
                      global_midi_c2 := 5 }, []) ∧
    ReceiveParser { zeroPre with global_running_status_rx := 0, global_3rd_byte_flag := 1,
                                 global_midi_c2 := 5 } (some 7) =
      ({ zeroPre with global_running_status_rx := 0, global_3rd_byte_flag := 0,
                      global_midi_c2 := 5, global_midi_c3 := 7 }, []) := by
  have h := C9_f2_quirk { zeroPre with global_running_status_rx := 0xF2 } 5 7
    (by decide) (by decide) rfl rfl
  exact ⟨by simpa using h.1, by simpa using h.2⟩

/-- Second data byte, all families at once: the pending flag is cleared, the
byte is stored in the second buffer, the running status is masked to its family
nibble, and the dispatched callback is keyed by that nibble. -/
theorem ReceiveParser_second_data (s : MidiState) (c : Nat) (hc : c < 128)
    (hflag : s.global_3rd_byte_flag = 1) :
    ReceiveParser s (some c) =
      ({ s with global_3rd_byte_flag := 0, global_midi_c3 := c,
                global_running_status_rx := s.global_running_status_rx &&& 0xF0 },
       if s.global_running_status_rx &&& 0xF0 = 0x90 then
         (if c = 0 then [Event.noteOff s.global_midi_c2 c]
          else [Event.noteOn s.global_midi_c2 c])
       else if s.global_running_status_rx &&& 0xF0 = 0x80 then
         [Event.noteOff s.global_midi_c2 c]
       else if s.global_running_status_rx &&& 0xF0 = 0xE0 then
         [Event.pitchWheel s.global_midi_c2 c]
       else if s.global_running_status_rx &&& 0xF0 = 0xB0 then
         [Event.controlChange s.global_midi_c2 c]
       else []) := by
  have hm : c % 256 = c := Nat.mod_eq_of_lt (by omega)
  have ha : c &&& 128 = 0 := and128_eq_zero_of_lt c hc
  simp only [ReceiveParser, CHANNEL_VOICE_MASK, C_NOTE_ON, C_NOTE_OFF, C_PITCH_WHEEL,
    C_PROGRAM_CHANGE, C_POLYPHONIC_AFTERTOUCH, C_CHANNEL_AFTERTOUCH, C_CONTROL_CHANGE,
    hm, ha, hflag, ne_eq, not_true_eq_false, not_false_eq_true, if_true, if_false]
  split_ifs <;> simp_all

/-!
C10. After any invocation that consumed a second data byte and dispatched a
callback, the receive running status holds only the command-family nibble with
the channel bits zeroed and the pending flag is 0, and the next data byte
starts a new message of that same family.
-/

/-- C10: after a dispatching second-data-byte invocation the running status is
the masked family nibble (channel bits zero), the flag is clear, and a
subsequent data byte is buffered as the first byte of a new message of that
family. -/
theorem C10_omni_family_continuation (s : MidiState) (c d : Nat)
    (hc : c < 128) (hd : d < 128)
    (hflag : s.global_3rd_byte_flag = 1)
    (hev : (ReceiveParser s (some c)).2 ≠ []) :
    (ReceiveParser s (some c)).1.global_running_status_rx =
      s.global_running_status_rx &&& 0xF0 ∧
    (ReceiveParser s (some c)).1.global_running_status_rx % 16 = 0 ∧
    (ReceiveParser s (some c)).1.global_3rd_byte_flag = 0 ∧
    ReceiveParser (ReceiveParser s (some c)).1 (some d) =
      ({ (ReceiveParser s (some c)).1 with global_3rd_byte_flag := 1,
                                           global_midi_c2 := d }, []) := by
  rw [ReceiveParser_second_data s c hc hflag] at hev ⊢
  by_cases h90 : s.global_running_status_rx &&& 0xF0 = 0x90
  · refine ⟨by simp [h90], by simp [h90], by simp, ?_⟩
    rw [ReceiveParser_first_data _ d hd (by simp) (by simp [h90]) (by simp [h90])]
  · by_cases h80 : s.global_running_status_rx &&& 0xF0 = 0x80
    · refine ⟨by simp [h80], by simp [h80], by simp, ?_⟩
      rw [ReceiveParser_first_data _ d hd (by simp) (by simp [h80]) (by simp [h80])]
    · by_cases he0 : s.global_running_status_rx &&& 0xF0 = 0xE0
      · refine ⟨by simp [he0], by simp [he0], by simp, ?_⟩
        rw [ReceiveParser_first_data_e0 _ d hd (by simp) (by simp [he0]) (by simp [he0])]
      · by_cases hb0 : s.global_running_status_rx &&& 0xF0 = 0xB0
        · refine ⟨by simp [hb0], by simp [hb0], by simp, ?_⟩
          rw [ReceiveParser_first_data _ d hd (by simp) (by simp [hb0]) (by simp [hb0])]
        · exfalso
          apply hev
          simp [h90, h80, he0, hb0]

/-- Closed instance of C10: a note-on on channel 5 completes, the running
status keeps only 0x90, and the next data byte starts a new note-on-family
message. -/
theorem C10_omni_family_continuation_witness :
    ((ReceiveParser { zeroPre with global_running_status_rx := 0x95,
                                   global_3rd_byte_flag := 1,
                                   global_midi_c2 := 60 } (some 100)).1.global_running_status_rx =
      0x95 &&& 0xF0) ∧
    (ReceiveParser { zeroPre with global_running_status_rx := 0x95,
                                  global_3rd_byte_flag := 1,
                                  global_midi_c2 := 60 } (some 100)).1.global_3rd_byte_flag = 0 := by
  have h := C10_omni_family_continuation
    { zeroPre with global_running_status_rx := 0x95, global_3rd_byte_flag := 1,
                   global_midi_c2 := 60 } 100 62 (by decide) (by decide) rfl (by decide)
  exact ⟨by simpa using h.1, h.2.2.1⟩

end SerialMidi
